import Mathlib

/-!
Shallow embedding of the simulation-and-virtualization engine of
`src/components/WorldMap.tsx` (earthquake-data-visualization).

JavaScript `number`s that hold parsed CSV values are modelled as `ℚ`
(every value in play is a finite decimal); timestamps are kept as the
ISO-like strings the code constructs; `new Date(ts).getTime()` is an
external builtin and is abstracted as a parameter `getTime : String → ℤ`.
React state updates are modelled as explicit state-passing functions.
-/

namespace EQViz

/-- The `EarthquakeData` interface of WorldMap.tsx (lines 10-16):
latitude, longitude, magnitude, depth as numbers, timestamp as an
ISO 8601 string. -/
structure EarthquakeData where
  latitude : ℚ
  longitude : ℚ
  magnitude : ℚ
  depth : ℚ
  timestamp : String
deriving DecidableEq, Repr

/-- The key function of the D3 data join (line 283):
`.data(filteredEarthquakes, d => d.timestamp)` — the diff key of an
event is its raw timestamp string. -/
def diffKey (d : EarthquakeData) : String :=
  d.timestamp

/-- Model of the JavaScript `parseInt(s, 10)` builtin restricted to
all-digit strings (the domain the year heuristic concerns): the numeric
value when every character is a decimal digit, `none` (`NaN`)
otherwise. -/
def parseIntDec (s : String) : Option ℕ :=
  let cs := s.data
  if cs ≠ [] ∧ cs.all Char.isDigit then
    some (cs.foldl (fun acc c => acc * 10 + (c.toNat - 48)) 0)
  else none

/-- Two-digit-year resolution from the CSV date parsing (lines 87-90):
`if (year.length === 2) { const yearNum = parseInt(year, 10);
year = (yearNum < 70 ? '20' : '19') + year; }`.
On a non-numeric two-digit string `parseInt` yields `NaN` and
`NaN < 70` is false, hence the `"19"` branch for `none`. -/
def resolveYear (year : String) : String :=
  if year.length = 2 then
    match parseIntDec year with
    | some yearNum => (if yearNum < 70 then "20" else "19") ++ year
    | none => "19" ++ year
  else year

/-- The two filter state variables of WorldMap.tsx (lines 50-51):
`minMagnitudeFilter : number` and `showOnlyShallow : boolean`.
The component holds no region predicate of any kind. -/
structure FilterConfig where
  minMagnitudeFilter : ℚ
  showOnlyShallow : Bool
deriving DecidableEq, Repr

/-- The filter body of `filteredEarthquakes` (lines 272-276):
`magnitudePass = d.magnitude >= minMagnitudeFilter;
depthPass = !showOnlyShallow || (showOnlyShallow && d.depth < 50);
return magnitudePass && depthPass`. -/
def filterPasses (cfg : FilterConfig) (d : EarthquakeData) : Bool :=
  let magnitudePass := decide (cfg.minMagnitudeFilter ≤ d.magnitude)
  let depthPass := !cfg.showOnlyShallow ||
    (cfg.showOnlyShallow && decide (d.depth < 50))
  magnitudePass && depthPass

/-- The spec's Filter Config and contract, §4.4, written from the spec's
words for comparison with the code's `filterPasses`:
`passes(event, config) = (event.magnitude ≥ config.minMagnitude) AND
(!config.shallowOnly OR event.depthKm < 50) AND
(config.region ? config.region(event) : true)`. -/
structure SpecFilterConfig where
  minMagnitude : ℚ
  shallowOnly : Bool
  region : Option (EarthquakeData → Bool)

/-- Spec §4.4 `passes`, following the spec's clause shapes. -/
def specPasses (c : SpecFilterConfig) (e : EarthquakeData) : Bool :=
  (decide (c.minMagnitude ≤ e.magnitude)) &&
  (!c.shallowOnly || decide (e.depth < 50)) &&
  (match c.region with
   | some p => p e
   | none => true)

/-- `activeEarthquakes = allEarthquakes.slice(0, simulationIndex)`
(line 269): the released-so-far candidate pool. -/
def activeEarthquakes (allEarthquakes : List EarthquakeData)
    (simulationIndex : ℕ) : List EarthquakeData :=
  allEarthquakes.take simulationIndex

/-- `filteredEarthquakes = activeEarthquakes.filter(...)` (lines 272-276):
the visible set resolved from the cursor and the filter config. -/
def filteredEarthquakes (allEarthquakes : List EarthquakeData)
    (simulationIndex : ℕ) (cfg : FilterConfig) : List EarthquakeData :=
  (activeEarthquakes allEarthquakes simulationIndex).filter
    (filterPasses cfg)

/-- The ordering the comparator of line 112 sorts by:
`new Date(a.timestamp).getTime() - new Date(b.timestamp).getTime()`
nonpositive, with `Date.getTime` abstracted as `getTime`. -/
def sortTimeLe (getTime : String → ℤ) (a b : EarthquakeData) : Prop :=
  getTime a.timestamp ≤ getTime b.timestamp

instance (getTime : String → ℤ) : DecidableRel (sortTimeLe getTime) :=
  fun a b => Int.decLe (getTime a.timestamp) (getTime b.timestamp)

instance (getTime : String → ℤ) :
    IsTotal EarthquakeData (sortTimeLe getTime) :=
  ⟨fun a b => Int.le_total (getTime a.timestamp) (getTime b.timestamp)⟩

instance (getTime : String → ℤ) :
    IsTrans EarthquakeData (sortTimeLe getTime) :=
  ⟨fun _ _ _ hab hbc => le_trans hab hbc⟩

/-- The chronological sort of line 112:
`parsedData.sort((a, b) => new Date(a.timestamp).getTime() -
new Date(b.timestamp).getTime())`. `Array.prototype.sort` is stable
(ECMAScript 2019), so it is modelled by the stable `List.insertionSort`
on the comparator's ordering. -/
def sortEvents (getTime : String → ℤ) (l : List EarthquakeData) :
    List EarthquakeData :=
  l.insertionSort (sortTimeLe getTime)

/-- The simulation-time display effect (Effect 3, lines 176-194):
with data present, an index inside the array shows the timestamp of
`allEarthquakes[simulationIndex]`; an index at or past the end shows the
timestamp of the last earthquake; with no data nothing is shown. -/
def displayTimestamp (allEarthquakes : List EarthquakeData)
    (simulationIndex : ℕ) : Option String :=
  if simulationIndex < allEarthquakes.length then
    (allEarthquakes[simulationIndex]?).map (fun e => e.timestamp)
  else if 0 < allEarthquakes.length then
    (allEarthquakes.getLast?).map (fun e => e.timestamp)
  else none

/-- The simulation clock's mutable state: `simulationIndex` (line 45)
and `isSimulationRunning` (line 54). -/
structure ClockState where
  index : ℕ
  running : Bool
deriving DecidableEq, Repr

/-- The interval callback of Effect 2 (lines 139-164), for a store of
`n` events: the interval only exists while running, so a tick with
`running = false` is the identity; otherwise
`nextIndex = prevIndex + 1`; if `nextIndex < n` the index advances,
else the simulation pauses itself (`setIsSimulationRunning(false)`) and
the index keeps its final position (`return prevIndex`). -/
def tickStep (n : ℕ) (s : ClockState) : ClockState :=
  if s.running then
    if s.index + 1 < n then ⟨s.index + 1, true⟩
    else ⟨s.index, false⟩
  else s

/-- The progress slider's onChange (line 410):
`setSimulationIndex(parseInt(e.target.value))` — a direct seek that
leaves the running flag alone. The slider's `max` attribute is
`allEarthquakes.length - 1` (line 407), so the browser only ever hands
the handler a value in `[0, n-1]`. -/
def seekStep (newIndex : ℕ) (s : ClockState) : ClockState :=
  ⟨newIndex, s.running⟩

/-- A user-or-timer operation on the clock state. -/
inductive SimOp where
  | tick : SimOp
  | seek (newIndex : ℕ) : SimOp
deriving DecidableEq, Repr

/-- Apply one operation for a store of `n` events. -/
def applyOp (n : ℕ) (s : ClockState) : SimOp → ClockState
  | SimOp.tick => tickStep n s
  | SimOp.seek newIndex => seekStep newIndex s

/-- Run a sequence of operations. -/
def runOps (n : ℕ) (ops : List SimOp) (s : ClockState) : ClockState :=
  ops.foldl (applyOp n) s

/-- Every seek in the sequence carries a value the slider can produce,
i.e. below the store size (the slider's max is `n - 1`). -/
def opsValid (n : ℕ) (ops : List SimOp) : Bool :=
  ops.all fun op =>
    match op with
    | SimOp.tick => true
    | SimOp.seek newIndex => decide (newIndex < n)

/-- Model of the JavaScript `parseFloat` builtin, restricted to plain
decimal numerals (optionally signed, optional fractional part):
returns `none` exactly when `parseFloat` returns `NaN` on such inputs. -/
def jsParseFloat (s : String) : Option ℚ :=
  let cs := s.toList
  let rest := match cs with
    | '-' :: r => r
    | '+' :: r => r
    | _ => cs
  let sign : ℚ := match cs with
    | '-' :: _ => -1
    | _ => 1
  let intPart := rest.takeWhile Char.isDigit
  let afterInt := rest.dropWhile Char.isDigit
  let fracPart := match afterInt with
    | '.' :: r => r.takeWhile Char.isDigit
    | _ => []
  let digitsVal : List Char → ℕ :=
    fun ds => ds.foldl (fun acc c => acc * 10 + (c.toNat - 48)) 0
  if intPart.isEmpty && fracPart.isEmpty then none
  else some (sign * ((digitsVal intPart : ℚ) +
    (digitsVal fracPart : ℚ) / ((10 : ℚ) ^ fracPart.length)))

/-- The magnitude slider's onChange handler (line 433):
`setMinMagnitudeFilter(parseFloat(e.target.value))` — the parse result
is stored unconditionally; the previous filter value is never consulted.
The stored number is `Option ℚ`, `none` standing for `NaN`. -/
def magnitudeOnChange (prev : Option ℚ) (value : String) : Option ℚ :=
  jsParseFloat value

/-- Sample events for the §8 scenarios: magnitudes 3.0, 6.0, 8.0 at
store indices 0, 1, 2. -/
def quakeA : EarthquakeData :=
  ⟨0, 0, 3, 10, "2000-01-01T00:00:00Z"⟩

def quakeB : EarthquakeData :=
  ⟨10, 10, 6, 20, "2000-01-02T00:00:00Z"⟩

def quakeC : EarthquakeData :=
  ⟨20, 20, 8, 30, "2000-01-03T00:00:00Z"⟩

def threeQuakes : List EarthquakeData := [quakeA, quakeB, quakeC]

/-- Two distinct events sharing one timestamp string (the CSV has no
primary key, and date+time collisions occur in real data). -/
def tieA : EarthquakeData :=
  ⟨1, 0, 5, 10, "2000-01-01T00:00:00Z"⟩

def tieB : EarthquakeData :=
  ⟨2, 0, 5, 10, "2000-01-01T00:00:00Z"⟩

/-- Claim C1: the spec requires unique diff keys even for events sharing
a timestamp, and itself flags the code's raw-timestamp keying as a
latent bug. Evaluated at the failing input: `tieA` and `tieB` are
distinct events, yet the D3 join key of line 283 assigns them the same
key, collapsing them into one visual entity. -/
theorem c1_diffKey_collision :
    tieA ≠ tieB ∧ diffKey tieA = diffKey tieB := by
  constructor
  · decide
  · rfl

/-- Claim C2, counterexample: with N = 3, three ticks from index 0 leave
the index at 2, not 3 — the tick whose increment would reach N keeps the
previous index (and stops the clock), so the cursor never attains N. -/
theorem c2_tick_counterexample :
    runOps 3 [SimOp.tick, SimOp.tick, SimOp.tick] ⟨0, true⟩ =
      ⟨2, false⟩ ∧
    (runOps 3 [SimOp.tick, SimOp.tick, SimOp.tick] ⟨0, true⟩).index ≠ 3 ∧
    tickStep 3 ⟨2, true⟩ = ⟨2, false⟩ := by
  refine ⟨by decide, by decide, by decide⟩

/-- Claim C2, amended: a running tick with `index + 1 < N` increments
the index by exactly 1; a running tick with `index + 1 ≥ N` keeps the
index and sets `running := false` (Finished). With N = 3 the trace from
index 0 is 0→1→2→2, the third tick finishing the simulation. -/
theorem c2_tick_semantics (n : ℕ) (s : ClockState)
    (hrun : s.running = true) :
    (s.index + 1 < n → tickStep n s = ⟨s.index + 1, true⟩) ∧
    (n ≤ s.index + 1 → tickStep n s = ⟨s.index, false⟩) ∧
    runOps 3 [SimOp.tick] ⟨0, true⟩ = ⟨1, true⟩ ∧
    runOps 3 [SimOp.tick, SimOp.tick] ⟨0, true⟩ = ⟨2, true⟩ ∧
    runOps 3 [SimOp.tick, SimOp.tick, SimOp.tick] ⟨0, true⟩ =
      ⟨2, false⟩ := by
  refine ⟨?_, ?_, by decide, by decide, by decide⟩
  · intro hlt
    simp [tickStep, hrun, hlt]
  · intro hge
    have : ¬ s.index + 1 < n := by omega
    simp [tickStep, hrun, this]

/-- Claim C2, witness for the amended theorem at N = 3,
state ⟨0, true⟩. -/
theorem c2_tick_semantics_witness :
    (ClockState.running ⟨0, true⟩ = true) ∧
    ((0 : ℕ) + 1 < 3 → tickStep 3 ⟨0, true⟩ = ⟨0 + 1, true⟩) := by
  exact ⟨rfl, (c2_tick_semantics 3 ⟨0, true⟩ rfl).1⟩

/-- Claim C4, counterexample: with the events of the §8 scenario
(magnitudes 3, 6, 8), cursor 2 and minMagnitude 5, the resolved visible
set is exactly `[quakeB]` — `quakeC` (magnitude 8.0, store index 2) is
not in it, because the candidate pool `slice(0, 2)` stops before it. -/
theorem c4_visible_counterexample :
    filteredEarthquakes threeQuakes 2 ⟨5, false⟩ = [quakeB] ∧
    quakeC ∉ filteredEarthquakes threeQuakes 2 ⟨5, false⟩ := by
  refine ⟨by decide, by decide⟩

/-- Claim C4, amended: the candidate pool at cursor 2 is the store
positions [0, 2), i.e. `[quakeA, quakeB]`; filtering it at
minMagnitude 5 yields `{event[1]}` only. The set `{event[1], event[2]}`
the spec scenario expects is what cursor 3 produces. -/
theorem c4_visible_amended :
    activeEarthquakes threeQuakes 2 = [quakeA, quakeB] ∧
    filteredEarthquakes threeQuakes 2 ⟨5, false⟩ = [quakeB] ∧
    filteredEarthquakes threeQuakes 3 ⟨5, false⟩ = [quakeB, quakeC] := by
  refine ⟨by decide, by decide, by decide⟩

/-- Claim C5: for every all-digit two-digit year string, the code
resolves the year by the rule value < 70 → "20"+year, else "19"+year;
in particular "05" → "2005" and "75" → "1975". -/
theorem c5_two_digit_year (year : String) (n : ℕ)
    (hlen : year.length = 2) (hnum : parseIntDec year = some n) :
    resolveYear year = (if n < 70 then "20" else "19") ++ year ∧
    resolveYear "05" = "2005" ∧
    resolveYear "75" = "1975" := by
  refine ⟨?_, by decide, by decide⟩
  simp [resolveYear, hlen, hnum]

/-- Claim C5, witness at year = "05", n = 5. -/
theorem c5_two_digit_year_witness :
    ("05".length = 2 ∧ parseIntDec "05" = some 5) ∧
    resolveYear "05" = (if 5 < 70 then "20" else "19") ++ "05" := by
  exact ⟨⟨by decide, by decide⟩,
    (c5_two_digit_year "05" 5 (by decide) (by decide)).1⟩

/-- Claim C3: the code's filter equals the spec's `passes` contract with
no region predicate installed (the component has no region state, so
none is ever set), and the spec contract itself is the plain conjunction
of the three independent predicates — hence the result is independent of
the order the predicates are evaluated in. -/
theorem c3_filter_contract (cfg : FilterConfig) (c : SpecFilterConfig)
    (e : EarthquakeData) :
    filterPasses cfg e =
      specPasses ⟨cfg.minMagnitudeFilter, cfg.showOnlyShallow, none⟩ e ∧
    (specPasses c e = true ↔
      (c.minMagnitude ≤ e.magnitude ∧
       (c.shallowOnly = true → e.depth < 50) ∧
       ∀ p, c.region = some p → p e = true)) := by
  constructor
  · obtain ⟨m, s⟩ := cfg
    cases s <;> simp [filterPasses, specPasses]
  · obtain ⟨m, s, r⟩ := c
    cases r with
    | none => cases s <;> simp [specPasses]
    | some p => cases s <;> simp [specPasses, and_assoc]

/-- Claim C7: monotonic playback — for a fixed filter config (the code
tracks no viewport), the visible set resolved at cursor k is a sublist,
hence a subset, of the visible set resolved at cursor k + 1: advancing
the cursor never removes an event from the visible set. -/
theorem c7_monotonic_playback (allEarthquakes : List EarthquakeData)
    (k : ℕ) (cfg : FilterConfig) :
    List.Sublist (filteredEarthquakes allEarthquakes k cfg)
      (filteredEarthquakes allEarthquakes (k + 1) cfg) ∧
    filteredEarthquakes allEarthquakes k cfg ⊆
      filteredEarthquakes allEarthquakes (k + 1) cfg := by
  have htake : List.Sublist (allEarthquakes.take k)
      (allEarthquakes.take (k + 1)) := by
    rw [List.take_succ]
    exact List.sublist_append_left _ _
  have h : List.Sublist (filteredEarthquakes allEarthquakes k cfg)
      (filteredEarthquakes allEarthquakes (k + 1) cfg) :=
    List.Sublist.filter (filterPasses cfg) htake
  exact ⟨h, h.subset⟩

/-- Claim C9, counterexample: with a prior valid filter value of 2, an
unparseable slider value is not rejected — the handler stores the `NaN`
parse result, so the stored config is no longer the prior one. -/
theorem c9_nan_counterexample :
    magnitudeOnChange (some 2) "abc" = none ∧
    magnitudeOnChange (some 2) "abc" ≠ some 2 := by
  refine ⟨by decide, by decide⟩

/-- Claim C9, amended: the magnitude setter performs no validation — it
stores `parseFloat(value)` unconditionally, so whenever the parse result
is `NaN` the stored value becomes `NaN` regardless of the prior valid
config value. -/
theorem c9_no_validation (prev : Option ℚ) (value : String)
    (h : jsParseFloat value = none) :
    magnitudeOnChange prev value = none := by
  simpa [magnitudeOnChange] using h

/-- Claim C9, witness for the amended theorem at prior value 2 and
input "abc". -/
theorem c9_no_validation_witness :
    jsParseFloat "abc" = none ∧
    magnitudeOnChange (some 2) "abc" = none := by
  exact ⟨by decide, c9_no_validation (some 2) "abc" (by decide)⟩

/-- Claim C6, counterexample: two distinct events with one timestamp
(hence one derived id) sort to whichever relative order the input had —
both input orders are fixed points of the sort — so ties are not broken
by id and the output order is not determined by the event set alone. -/
theorem c6_tie_counterexample :
    sortEvents (fun _ => 0) [tieA, tieB] = [tieA, tieB] ∧
    sortEvents (fun _ => 0) [tieB, tieA] = [tieB, tieA] ∧
    tieA.timestamp = tieB.timestamp ∧
    tieA ≠ tieB := by
  refine ⟨by decide, by decide, by decide, by decide⟩

/-- Claim C6, amended: the built store is sorted non-decreasing by
timestamp (the event at index i has time ≤ the event at index i + 1) and
is a permutation of the parsed rows; ties between equal timestamps keep
their input order (stable sort) rather than being broken by id. -/
theorem c6_sorted_by_timestamp (getTime : String → ℤ)
    (l : List EarthquakeData) :
    List.Sorted (sortTimeLe getTime) (sortEvents getTime l) ∧
    (sortEvents getTime l).Perm l := by
  exact ⟨List.sorted_insertionSort _ l, List.perm_insertionSort _ l⟩

/-- Claim C8, counterexample: in a two-event store with cursor index 1
the released prefix is `[quakeA]`, whose most recent element is
`quakeA`, yet the display effect shows the timestamp of `quakeB` — the
event at store index 1, which is not yet released. -/
theorem c8_display_counterexample :
    displayTimestamp [quakeA, quakeB] 1 = some quakeB.timestamp ∧
    activeEarthquakes [quakeA, quakeB] 1 = [quakeA] ∧
    quakeB.timestamp ≠ quakeA.timestamp := by
  refine ⟨by decide, by decide, by decide⟩

/-- Claim C8, amended: for a cursor index k inside the store, the
displayed timestamp is that of the event at store index k — the last
event of the prefix `take (k + 1)`, i.e. the next event to be shown,
one past the most recently released event of the prefix `take k`. -/
theorem c8_display_is_event_at_cursor (l : List EarthquakeData) (k : ℕ)
    (h : k < l.length) :
    displayTimestamp l k =
      ((l.take (k + 1)).getLast?).map (fun e => e.timestamp) := by
  rw [List.getLast?_eq_getElem?, List.length_take]
  have hmin : min (k + 1) l.length - 1 = k := by omega
  rw [hmin, List.getElem?_take_of_lt (by omega)]
  simp [displayTimestamp, h]

/-- Claim C8, witness for the amended theorem at a two-event store and
cursor 1. -/
theorem c8_display_witness :
    (1 < ([quakeA, quakeB] : List EarthquakeData).length) ∧
    displayTimestamp [quakeA, quakeB] 1 =
      (([quakeA, quakeB].take 2).getLast?).map (fun e => e.timestamp) := by
  exact ⟨by decide, c8_display_is_event_at_cursor [quakeA, quakeB] 1
    (by decide)⟩

/-- Helper for C10: a clock state whose index is below the store size
stays below it under any valid operation sequence. -/
theorem runOps_index_lt (n : ℕ) :
    ∀ (ops : List SimOp) (s : ClockState), s.index < n →
      opsValid n ops = true → (runOps n ops s).index < n := by
  intro ops
  induction ops with
  | nil => intro s hs _; simpa [runOps] using hs
  | cons op rest ih =>
    intro s hs hv
    simp only [opsValid, List.all_cons, Bool.and_eq_true] at hv
    have hstep : (applyOp n s op).index < n := by
      cases op with
      | tick =>
        simp only [applyOp, tickStep]
        by_cases hr : s.running
        · by_cases hlt : s.index + 1 < n
          · simp [hr, hlt]
          · simp [hr, hlt]; omega
        · simp [hr]; omega
      | seek newIndex =>
        simp only [applyOp, seekStep]
        simpa using hv.1
    have : runOps n (op :: rest) s = runOps n rest (applyOp n s op) := rfl
    rw [this]
    exact ih (applyOp n s op) hstep (by simpa [opsValid] using hv.2)

/-- Claim C10: for a store of n ≥ 1 events, starting from index 0, the
simulation index stays in [0, n-1] under every sequence of ticks and
slider seeks (the tick keeps the previous index when the increment would
reach n, and the slider hands over values below n), so the released
prefix `slice(0, index)` is always strictly shorter than the store and
never contains its last event. -/
theorem c10_index_invariant (n : ℕ) (ops : List SimOp) (hn : 1 ≤ n)
    (hops : opsValid n ops = true) :
    (runOps n ops ⟨0, true⟩).index ≤ n - 1 ∧
    ∀ l : List EarthquakeData, l.length = n →
      (activeEarthquakes l (runOps n ops ⟨0, true⟩).index).length <
        l.length := by
  have h0 : (⟨0, true⟩ : ClockState).index < n := by
    simpa using hn
  have hlt := runOps_index_lt n ops ⟨0, true⟩ h0 hops
  refine ⟨by omega, ?_⟩
  intro l hl
  simp only [activeEarthquakes, List.length_take]
  omega

/-- Claim C10, witness at n = 3 with a mixed tick/seek sequence. -/
theorem c10_index_invariant_witness :
    (1 ≤ 3 ∧ opsValid 3 [SimOp.tick, SimOp.seek 1, SimOp.tick,
      SimOp.tick, SimOp.tick, SimOp.tick] = true) ∧
    (runOps 3 [SimOp.tick, SimOp.seek 1, SimOp.tick, SimOp.tick,
      SimOp.tick, SimOp.tick] ⟨0, true⟩).index ≤ 3 - 1 := by
  exact ⟨⟨by decide, by decide⟩,
    (c10_index_invariant 3 [SimOp.tick, SimOp.seek 1, SimOp.tick,
      SimOp.tick, SimOp.tick, SimOp.tick] (by decide) (by decide)).1⟩

end EQViz
